import Mathlib

/-!
Verification development for the parus_digital question-answering service.

The definitions below are a shallow embedding of the repository's Python
sources:
  * `app/services/analytics.py`  — `PythonExecutorService` (`run_analysis`,
    `_generate_code`, `_execute_safe`);
  * `app/services/sql_agent.py`  — `SQLService.generate_response`;
  * `app/services/workflow.py`   — `router_node`, `route_condition`,
    `build_graph` and the per-branch nodes.

External effects (the Ollama model, MinIO, the relational store, pandas
parsing, matplotlib rasterisation, and the dynamic `exec` of generated
Python) are modelled as oracle parameters: each is an arbitrary function
whose `Except` result stands for "returned a value" or "raised".  The
Python string methods used by the sources (`split`, `replace`, `find`,
`upper`, `strip`, `in`) are transliterated over `List Char` so that every
definition is executable.
-/

/-! ## Python string primitives -/

/-- Single apostrophe character, kept out of string literals. -/
def squote : String := String.singleton (Char.ofNat 39)

/-- First index at which `sub` occurs in `s` (Python `s.find(sub)` for a
found result), scanning left to right.  `none` when `sub` never occurs. -/
def findSub (s sub : List Char) : Option Nat :=
  go s 0
where
  go : List Char → Nat → Option Nat
    | [], i => if sub = [] then some i else none
    | c :: rest, i =>
      if sub.isPrefixOf (c :: rest) then some i else go rest (i + 1)

/-- Python `sub in s`. -/
def containsSub (s sub : List Char) : Bool :=
  (findSub s sub).isSome

/-- Everything after the first occurrence of `sep` in `s`, when `sep`
occurs. -/
def afterFirst (sep s : List Char) : Option (List Char) :=
  (findSub s sep).map (fun i => s.drop (i + sep.length))

/-- Python `s.split(sep)[1]`: the segment strictly between the end of the
first occurrence of `sep` and the start of the next occurrence (or the end
of the string).  The sources only evaluate this under an `if sep in s`
guard; when `sep` does not occur we return `s` (the index would raise). -/
def pySplitGet1 (sep s : List Char) : List Char :=
  match afterFirst sep s with
  | none => s
  | some rest =>
    match findSub rest sep with
    | none => rest
    | some j => rest.take j

/-- Python `s.replace(old, new)`: replace all non-overlapping occurrences
left to right.  Fuel-driven recursion (`s.length + 1` steps always
suffice because `old` is non-empty at every call site). -/
def pyReplaceGo (old new : List Char) : Nat → List Char → List Char
  | 0, s => s
  | fuel + 1, s =>
    match findSub s old with
    | none => s
    | some i => s.take i ++ new ++ pyReplaceGo old new fuel (s.drop (i + old.length))

def pyReplace (s old new : List Char) : List Char :=
  pyReplaceGo old new (s.length + 1) s

/-- ASCII whitespace test used by Python `str.strip()` on the texts the
service handles. -/
def isPySpace (c : Char) : Bool :=
  c = ' ' || c = '\n' || c = '\t' || c = '\r'

/-- Python `s.strip()`. -/
def pyStrip (s : List Char) : List Char :=
  ((s.dropWhile isPySpace).reverse.dropWhile isPySpace).reverse

/-- Python `repr` of a list of strings, as interpolated by the f-strings in
`run_analysis` when building a schema block. -/
def pyListRepr (xs : List String) : String :=
  "[" ++ String.intercalate ", " (xs.map (fun s => squote ++ s ++ squote)) ++ "]"

/-- Python `str(x)` for an optional value interpolated into an f-string:
`None` prints as the text `None`. -/
def pyFmtOpt : Option String → String
  | none => "None"
  | some s => s

/-! ## Base64 (RFC 4648), used for the rasterised chart bytes -/

def b64Alphabet : List Char :=
  "ABCDEFGHIJKLMNOPQRSTUVWXYZabcdefghijklmnopqrstuvwxyz0123456789+/".toList

def b64Digit (n : Nat) : Char :=
  b64Alphabet.getD n (Char.ofNat 65)

/-- Base64 character stream of a byte list (bytes modelled as `Nat`). -/
def b64Chars : List Nat → List Char
  | [] => []
  | [a] => [b64Digit (a / 4), b64Digit (a % 4 * 16), '=', '=']
  | [a, b] => [b64Digit (a / 4), b64Digit (a % 4 * 16 + b / 16), b64Digit (b % 16 * 4), '=']
  | a :: b :: c :: rest =>
    b64Digit (a / 4) :: b64Digit (a % 4 * 16 + b / 16) ::
      b64Digit (b % 16 * 4 + c / 64) :: b64Digit (c % 64) :: b64Chars rest

/-- `base64.b64encode(...).decode('utf-8')`. -/
def base64Encode (bytes : List Nat) : String :=
  (b64Chars bytes).asString

/-! ## Data model: `app/schemas/analytics.py`, `app/db/models.py` -/

/-- An in-memory pandas table, reduced to what the service reads: the
ordered columns, each with its name and its values rendered as strings
(`astype(str)` is applied by the only consumer). -/
structure DataFrame where
  cols : List (String × List String)
deriving DecidableEq, Repr

/-- `FileMetadata` row (`app/db/models.py`), restricted to the fields
`run_analysis` reads.  `columns_schema` is `some` entries when the stored
JSON is a dict (the `isinstance(meta.columns_schema, dict)` check), `none`
otherwise. -/
structure FileMeta where
  id : Nat
  filename : String
  minio_path : String
  columns_schema : Option (List (String × String))
deriving DecidableEq, Repr

/-- `AnalyticsResponse` (`app/schemas/analytics.py`), with its pydantic
defaults. -/
structure AnalyticsResponse where
  answer_text : String
  plot_base64 : Option String := none
  executed_code : String
  is_error : Bool := false
deriving DecidableEq, Repr

/-! ## Values and scopes for the dynamic execution model -/

/-- A Python value as far as `_execute_safe` inspects one: strings are
distinguished (for the `isinstance(final_result, str)` check), integers and
`None` render through `str`, a `DataFrame` is carried structurally, and any
other object is carried as the string `str` would render it to. -/
inductive PyValue where
  | str : String → PyValue
  | intg : Int → PyValue
  | noneV : PyValue
  | df : DataFrame → PyValue
  | obj : String → PyValue
deriving DecidableEq, Repr

/-- `isinstance(v, str)`. -/
def isStrV : PyValue → Bool
  | .str _ => true
  | _ => false

/-- Python `str(v)`.  The `DataFrame` rendering is a deterministic
stand-in for the pandas table repr; no claim depends on its exact text. -/
def pyStr : PyValue → String
  | .str s => s
  | .intg n => toString n
  | .noneV => "None"
  | .df d => "DataFrame" ++ pyListRepr (d.cols.map Prod.fst)
  | .obj r => r

/-- The `local_scope` dict: association list, first match wins. -/
abbrev Scope := List (String × PyValue)

def scopeGet : Scope → String → Option PyValue
  | [], _ => none
  | (k, v) :: rest, key => if k = key then some v else scopeGet rest key

/-! ## `PythonExecutorService._execute_safe` (analytics.py lines 169-197) -/

/-- The `local_scope` built at analytics.py lines 173-174:
`{"pd": pd, "plt": plt}` updated with the loaded dataframes under their
stable identifiers. -/
def mkLocalScope (dfs : List (String × DataFrame)) : Scope :=
  ("pd", PyValue.obj "module pandas") ::
  ("plt", PyValue.obj "module matplotlib.pyplot") ::
  dfs.map (fun p => (p.1, PyValue.df p.2))

/-- The names the explicitly constructed `local_scope` binds. -/
def localScopeNames (dfs : List (String × DataFrame)) : List String :=
  (mkLocalScope dfs).map Prod.fst

/-- Modelled CPython semantics of `exec(code, {}, local_scope)`: a globals
dict that lacks `__builtins__` has the builtins module injected into it, so
generated code can also resolve every builtin name.  A representative
subset of the capability-bearing builtins. -/
def pythonBuiltinNames : List String :=
  ["open", "__import__", "eval", "compile", "input", "globals", "getattr"]

/-- All names resolvable by the generated code under
`exec(code, {}, local_scope)`: the explicit locals plus the injected
builtins. -/
def execAccessibleNames (dfs : List (String × DataFrame)) : List String :=
  localScopeNames dfs ++ pythonBuiltinNames

/-- `_execute_safe`.  `interp` is the oracle for the dynamic `exec` of the
generated code: given the code, the initial local scope, and the figure
registry left by the preceding `plt.close('all')` (always `[]`), it either
raises or returns the post-execution scope and figure registry.  `render`
is the oracle for `plt.savefig(...png...)` on the current figures.  The
result triple is (final_result, plot_base64, figure registry on return). -/
def execute_safe (interp : String → Scope → List Nat → Except String (Scope × List Nat))
    (render : List Nat → List Nat) (code : String) (dfs : List (String × DataFrame)) :
    Except String (PyValue × Option String × List Nat) :=
  match interp code (mkLocalScope dfs) [] with
  | .error e => .error e
  | .ok (scope, figs) =>
    let final0 := (scopeGet scope "final_result").getD (PyValue.str "Код выполнен.")
    if figs.isEmpty then
      .ok (final0, none, figs)
    else
      let b64 := base64Encode (render figs)
      let final1 := if isStrV final0 then final0 else PyValue.str "График построен."
      .ok (final1, some b64, [])

/-! ## `PythonExecutorService._generate_code` (analytics.py lines 103-167) -/

/-- The user-side message assembled at analytics.py lines 153-155: the
query, plus — when the `error` argument is truthy — the previous error and
the fixed hint.  (`if error:` is false for `None` and for the empty
string.) -/
def genMsg (query : String) (error : Option String) : String :=
  match error with
  | none => query
  | some e =>
    if e = "" then query
    else
      query ++ "\n\nPREVIOUS ERROR: " ++ e ++
        "\nHINT: Remove plt.show()! Check your column names."

/-- The markdown stripping applied to the model's reply at analytics.py
line 167: `content.replace("```python", "").replace("```", "").strip()`. -/
def stripCode (s : String) : String :=
  (pyStrip (pyReplace (pyReplace s.toList "```python".toList []) "```".toList [])).asString

/-- `_generate_code`.  `llm` is the oracle for `chain.ainvoke`, indexed by
the attempt number (the model service is nondeterministic across calls)
and applied to the run-dependent context: the assembled message and the
joined schema blocks.  The fixed instruction template of the prompt is a
constant and is therefore not part of the oracle's arguments.  The
`previousCode` parameter mirrors the Python signature's `previous_code`;
as in the source, it is never used in the body. -/
def generate_code (llm : Nat → String → String → Except String String) (i : Nat)
    (query : String) (schemas : List String) (error : Option String)
    (previousCode : String) : Except String String :=
  let _ := previousCode
  let msg := genMsg query error
  match llm i msg (String.intercalate "\n" schemas) with
  | .error e => .error e
  | .ok content => .ok (stripCode content)

/-! ## The retry loop of `run_analysis` (analytics.py lines 75-97) -/

/-- What one iteration of the retry loop did.  Errors carried here are the
already-formatted `last_error` strings
(`f"{type(e).__name__}: {str(e)}\nTraceback: ..."`); the oracles produce
them directly. -/
inductive AttemptOutcome where
  | genFail : String → AttemptOutcome
  | execFail : String → String → AttemptOutcome
  | success : String → String → Option String → AttemptOutcome
deriving DecidableEq, Repr

/-- Instrumentation record for one attempt: the message sent to the model
and the outcome.  The trace is observational only; the response
computation matches the source exactly. -/
structure AttemptRec where
  msg : String
  outcome : AttemptOutcome
deriving DecidableEq, Repr

/-- The error captured by an attempt, if it failed. -/
def outcomeErr : AttemptOutcome → Option String
  | .genFail e => some e
  | .execFail _ e => some e
  | .success _ _ _ => none

/-- The value of the Python `last_error` variable after a list of
attempts, starting from `le`. -/
def lastErrAfter (le : Option String) : List AttemptRec → Option String
  | [] => le
  | r :: t =>
    lastErrAfter (match outcomeErr r.outcome with
                  | some e => some e
                  | none => le) t

/-- The value of the Python `code` variable after a list of attempts,
starting from `c` (generation failures leave it unchanged). -/
def codeAfter (c : String) : List AttemptRec → String
  | [] => c
  | r :: t =>
    codeAfter (match r.outcome with
               | .genFail _ => c
               | .execFail cd _ => cd
               | .success cd _ _ => cd) t

/-- The exhaustion response built after the `for` loop falls through
(analytics.py lines 93-97). -/
def exhaustResp (le : Option String) (code : String) : AnalyticsResponse :=
  { answer_text := "Не удалось. Ошибка: " ++ pyFmtOpt le
    executed_code := code
    is_error := true }

/-- The `for attempt in range(self.max_retries)` loop.  `ex i c` is the
outcome of `self._execute_safe(c, dfs)` on attempt `i`, already composed
with the `str(result)` coercion of line 85: it yields the displayed result
text and the optional chart.  The loop returns the response together with
the trace of attempts made. -/
def analysisGo (llm : Nat → String → String → Except String String)
    (ex : Nat → String → Except String (String × Option String))
    (query : String) (schemas : List String) :
    List Nat → Option String → String → AnalyticsResponse × List AttemptRec
  | [], le, code => (exhaustResp le code, [])
  | i :: rest, le, code =>
    let msg := genMsg query le
    match generate_code llm i query schemas le "" with
    | .error e =>
      let r := analysisGo llm ex query schemas rest (some e) code
      (r.1, ⟨msg, .genFail e⟩ :: r.2)
    | .ok c =>
      match ex i c with
      | .ok res =>
        ({ answer_text := res.1, plot_base64 := res.2, executed_code := c },
         [⟨msg, .success c res.1 res.2⟩])
      | .error e =>
        let r := analysisGo llm ex query schemas rest (some e) c
        (r.1, ⟨msg, .execFail c e⟩ :: r.2)

/-! ## The load phase of `run_analysis` (analytics.py lines 39-73) -/

/-- `self.max_retries` (analytics.py line 30). -/
def maxRetries : Nat := 3

/-- The schema text block built at analytics.py lines 53-67, `none` when
`df.columns[0]` raises `IndexError` (zero-column frame); that exception is
caught by the surrounding `except` and the file contributes no block. -/
def mkSchemaBlock (meta : FileMeta) (df : DataFrame) : Option String :=
  match df.cols with
  | [] => none
  | (first_col_name, first_vals) :: _ =>
    let readable :=
      match meta.columns_schema with
      | some entries =>
        entries.map (fun p => "   - Column " ++ squote ++ p.1 ++ squote ++ ": " ++ p.2)
      | none => []
    some ("DATASET: variable " ++ squote ++ "df_" ++ toString meta.id ++ squote ++
          " (Filename: " ++ meta.filename ++ ")\n" ++
          "ALL COLUMN NAMES: " ++ pyListRepr (df.cols.map Prod.fst) ++ "\n" ++
          "COLUMN MEANINGS:\n" ++ String.intercalate "\n" readable ++ "\n" ++
          "SAMPLE VALUES IN FIRST COLUMN (" ++ squote ++ first_col_name ++ squote ++
          "): " ++ pyListRepr (first_vals.take 5) ++ "...\n")

/-- The `for meta in files_meta` loop (lines 42-70).  `loadDf` is the
oracle composing `storage.get_file` with `pd.read_csv`/`pd.read_excel`
(chosen by the `.csv` suffix inside the oracle); an `.error` models any
exception in that load, which the `except` swallows after logging.  A
frame that loads is entered into `dfs` under `df_{id}` even when its
schema block construction then raises (the dict insert at line 51 precedes
the block build). -/
def loadPhase (loadDf : FileMeta → Except String DataFrame) :
    List FileMeta → List (String × DataFrame) × List String
  | [] => ([], [])
  | m :: rest =>
    match loadDf m with
    | .error _ => loadPhase loadDf rest
    | .ok df =>
      let r := loadPhase loadDf rest
      match mkSchemaBlock m df with
      | none => (("df_" ++ toString m.id, df) :: r.1, r.2)
      | some block => (("df_" ++ toString m.id, df) :: r.1, block :: r.2)

/-! ## `PythonExecutorService.run_analysis` (analytics.py lines 32-97) -/

/-- `run_analysis`.  `files_meta` is the result of
`_get_relevant_files_metadata` (the five most recent rows, an external
query).  The returned trace lists the attempts the retry loop made; it is
empty on the two early returns. -/
def run_analysis (loadDf : FileMeta → Except String DataFrame)
    (llm : Nat → String → String → Except String String)
    (interp : Nat → String → Scope → List Nat → Except String (Scope × List Nat))
    (render : List Nat → List Nat)
    (files_meta : List FileMeta) (user_query : String) :
    AnalyticsResponse × List AttemptRec :=
  if files_meta.isEmpty then
    ({ answer_text := "Нет файлов. Загрузите Excel.", executed_code := "" }, [])
  else
    let loaded := loadPhase loadDf files_meta
    if loaded.1.isEmpty then
      ({ answer_text := "Ошибка данных", executed_code := "", is_error := true }, [])
    else
      analysisGo llm
        (fun i c =>
          match execute_safe (interp i) render c loaded.1 with
          | .error e => .error e
          | .ok r => .ok (pyStr r.1, r.2.1))
        user_query loaded.2 (List.range maxRetries) none ""

/-! ## `SQLService.generate_response` (sql_agent.py lines 19-82) -/

/-- Stages 1-2 of the cleanup block (sql_agent.py lines 27-35): fenced
markdown extraction (`split("```")[1].replace("sql", "")`) followed by the
`SQLQuery:` label split. -/
def sqlRefine (raw : List Char) : List Char :=
  let g1 :=
    if containsSub raw "```".toList then
      pyReplace (pySplitGet1 "```".toList raw) "sql".toList []
    else raw
  if containsSub g1 "SQLQuery:".toList then pySplitGet1 "SQLQuery:".toList g1
  else g1

/-- Stage 3 (lines 37-48): find the first case-insensitive `SELECT` in the
refined text; take from there to the end and strip, or — with no `SELECT`
anywhere — signal refusal, carrying the refined text as the answer.
`.inr` = clean SQL to execute, `.inl` = refusal answer. -/
def cleanSqlOf (raw : String) : Sum String String :=
  let g2 := sqlRefine raw.toList
  match findSub (g2.map Char.toUpper) "SELECT".toList with
  | some i => .inr (pyStrip (g2.drop i)).asString
  | none => .inl g2.asString

/-- The three dict shapes `generate_response` can return. -/
inductive SqlResp where
  | refusal : String → SqlResp
  | execErr : String → String → SqlResp
  | success : String → String → String → SqlResp
deriving DecidableEq, Repr

/-- The `.get`-visible fields of each dict, as read by `sql_node`
(workflow.py lines 81-85): `(sql, result, answer)`; the execution-error
dict has no `result` key. -/
def sqlRespGet : SqlResp → Option String × Option String × Option String
  | .refusal ans => (some "Not generated", some "", some ans)
  | .execErr q e => (some q, none, some ("Ошибка выполнения SQL: " ++ e))
  | .success q r a => (some q, some r, some a)

/-- `generate_response`.  `llmSql` is the oracle result of the
`create_sql_query_chain` invocation for this question; `dbRun` the oracle
for `self.db.run`; `llmInterp` the oracle for the interpretation chain
(question, query, result).  The second component of a successful return is
the list of queries actually executed against the store (observational
trace; empty on the refusal path).  A raise in either model call
propagates out, as in the source. -/
def generate_response (llmSql : Except String String)
    (dbRun : String → Except String String)
    (llmInterp : String → String → String → Except String String)
    (question : String) : Except String (SqlResp × List String) :=
  match llmSql with
  | .error e => .error e
  | .ok generated_sql =>
    match cleanSqlOf generated_sql with
    | .inl answer => .ok (.refusal answer, [])
    | .inr clean_sql =>
      match dbRun clean_sql with
      | .error e => .ok (.execErr clean_sql e, [clean_sql])
      | .ok result_str =>
        match llmInterp question clean_sql result_str with
        | .error e => .error e
        | .ok final_answer => .ok (.success clean_sql result_str final_answer, [clean_sql])

/-! ## Workflow graph: `router_node`, `route_condition`, `build_graph`
(workflow.py) -/

/-- A parsed JSON value, as far as `router_node` inspects one. -/
inductive JsonVal where
  | str : String → JsonVal
  | num : Int → JsonVal
  | boolV : Bool → JsonVal
  | nullV : JsonVal
  | obj : List (String × JsonVal) → JsonVal
  | arr : List JsonVal → JsonVal

/-- Dict lookup on a parsed JSON object. -/
def lookupJson : List (String × JsonVal) → String → Option JsonVal
  | [], _ => none
  | (k, v) :: rest, key => if k = key then some v else lookupJson rest key

/-- `router_node` (workflow.py lines 40-75).  `classifier` is the oracle
for the constrained-JSON model call composed with `json.loads`: `.error`
covers a network failure or unparseable content (both raise inside the
`try` and yield `"general"`).  `data.get("intent", "general")` defaults a
missing key; calling `.get` on a non-dict raises `AttributeError`, which
the same `except` turns into `"general"`.  A present `intent` value is
passed through unvalidated, whatever it is. -/
def router_node (classifier : Except String JsonVal) : JsonVal :=
  match classifier with
  | .error _ => .str "general"
  | .ok (.obj kvs) => (lookupJson kvs "intent").getD (.str "general")
  | .ok _ => .str "general"

/-- `route_condition` (workflow.py lines 140-141):
`state["intent"] + "_agent"`.  Concatenating a non-string raises
`TypeError`, uncaught. -/
def route_condition (intent : JsonVal) : Except String String :=
  match intent with
  | .str s => .ok (s ++ "_agent")
  | _ => .error "TypeError: can only concatenate str (not other) to str"

/-- The path map of `add_conditional_edges` (workflow.py lines 143-151). -/
def conditionalEdgeMap : List (String × String) :=
  [("sql_agent", "sql_agent"), ("python_agent", "python_agent"),
   ("general_agent", "general_agent")]

/-- The normalized final state the compiled graph hands back to the
caller of `ainvoke` — the `GraphState` fields the branch nodes write.
There is no error flag among them. -/
structure WfResult where
  final_answer : Option String := none
  plot_base64 : Option String := none
  sql_query : Option String := none
  sql_result : Option String := none
  python_code : Option String := none
deriving DecidableEq, Repr

/-- One `ainvoke` run of the compiled graph of `build_graph` (workflow.py
lines 127-158), under the modelled langgraph semantics: nodes run
sequentially from the entry point, the conditional-edge function selects
the branch through the path map (an unmapped key makes the library raise),
and an exception raised inside a node or edge function propagates to the
caller of `ainvoke` — the graph installs no handler.  `sqlH`, `pyH`,
`genH` are the oracles for the branch bodies applied to the question:
`SQLService().generate_response(q)` (its dict), `run_analysis(q)` (its
`AnalyticsResponse`), and the chat model call of `general_node`; each may
raise (e.g. the SQL chain's model call, the DB session, the chat call).
The branch nodes' field mappings are those of workflow.py lines 77-122. -/
def workflow_ainvoke (classifier : Except String JsonVal)
    (sqlH : String → Except String SqlResp)
    (pyH : String → Except String AnalyticsResponse)
    (genH : String → Except String String)
    (question session_id : String) : Except String WfResult :=
  let _ := session_id
  let intent := router_node classifier
  match route_condition intent with
  | .error e => .error e
  | .ok key =>
    match List.lookup key conditionalEdgeMap with
    | none => .error ("Branch condition returned unknown target " ++ key)
    | some node =>
      if node = "sql_agent" then
        match sqlH question with
        | .error e => .error e
        | .ok resp =>
          let f := sqlRespGet resp
          .ok { sql_query := f.1, sql_result := f.2.1, final_answer := f.2.2 }
      else if node = "python_agent" then
        match pyH question with
        | .error e => .error e
        | .ok resp =>
          .ok { python_code := some resp.executed_code
                plot_base64 := resp.plot_base64
                final_answer := some resp.answer_text }
      else
        match genH question with
        | .error e => .error e
        | .ok content => .ok { final_answer := some content }

/-! ## Helper lemmas about the retry loop -/

/-- Attempt `i` cannot succeed: whenever generation returns code, its
execution raises. -/
def attemptFails (llm : Nat → String → String → Except String String)
    (ex : Nat → String → Except String (String × Option String))
    (query : String) (schemas : List String) (i : Nat) : Prop :=
  ∀ le c, generate_code llm i query schemas le "" = .ok c → ∃ e, ex i c = .error e

/-- When every scheduled attempt fails, the loop falls through to the
exhaustion response, makes one attempt per scheduled index, and every
trace record carries a captured error. -/
lemma analysisGo_allFail (llm : Nat → String → String → Except String String)
    (ex : Nat → String → Except String (String × Option String))
    (query : String) (schemas : List String) :
    ∀ (l : List Nat) (le : Option String) (code : String),
      (∀ i ∈ l, attemptFails llm ex query schemas i) →
      ∃ t, analysisGo llm ex query schemas l le code =
             (exhaustResp (lastErrAfter le t) (codeAfter code t), t) ∧
           t.length = l.length ∧ (∀ r ∈ t, outcomeErr r.outcome ≠ none) := by
  intro l
  induction l with
  | nil =>
    intro le code _
    exact ⟨[], by simp [analysisGo, lastErrAfter, codeAfter], rfl, by simp⟩
  | cons i rest ih =>
    intro le code h
    have hi := h i (List.mem_cons_self i rest)
    have hrest : ∀ j ∈ rest, attemptFails llm ex query schemas j :=
      fun j hj => h j (List.mem_cons_of_mem i hj)
    cases hg : generate_code llm i query schemas le "" with
    | error e =>
      obtain ⟨t, ht, hlen, herr⟩ := ih (some e) code hrest
      refine ⟨⟨genMsg query le, .genFail e⟩ :: t, ?_, by simp [hlen], ?_⟩
      · simp only [analysisGo, hg, ht]
        simp [lastErrAfter, codeAfter, outcomeErr]
      · intro r hr
        rcases List.mem_cons.mp hr with hr | hr
        · subst hr; simp [outcomeErr]
        · exact herr r hr
    | ok c =>
      obtain ⟨e, he⟩ := hi le c hg
      obtain ⟨t, ht, hlen, herr⟩ := ih (some e) c hrest
      refine ⟨⟨genMsg query le, .execFail c e⟩ :: t, ?_, by simp [hlen], ?_⟩
      · simp only [analysisGo, hg, he, ht]
        simp [lastErrAfter, codeAfter, outcomeErr]
      · intro r hr
        rcases List.mem_cons.mp hr with hr | hr
        · subst hr; simp [outcomeErr]
        · exact herr r hr

/-- The final `last_error` equals the error captured by the last attempt,
whenever the last attempt captured one. -/
lemma lastErrAfter_getLast :
    ∀ (t : List AttemptRec) (le : Option String) (r : AttemptRec),
      t.getLast? = some r → outcomeErr r.outcome ≠ none →
      lastErrAfter le t = outcomeErr r.outcome := by
  intro t
  induction t with
  | nil => intro le r h _; simp at h
  | cons a t ih =>
    intro le r h hne
    cases t with
    | nil =>
      simp at h
      subst h
      cases ho : outcomeErr a.outcome with
      | none => exact absurd ho hne
      | some e => simp [lastErrAfter, ho]
    | cons b t' =>
      have h' : (b :: t').getLast? = some r := by
        simpa [List.getLast?] using h
      simp only [lastErrAfter]
      exact ih _ r h' hne

/-! ## Claim theorems -/

/-- C1: In an analysis run whose retry loop reaches the attempt loop and in
which every attempt raises (at generation or at execution), `run_analysis`
makes exactly `max_retries = 3` attempts and then returns — rather than
raising — a response with `is_error = true`, whose answer text embeds the
final value of `last_error` (the error captured by the last attempt), and
whose `executed_code` is the last code text a generation produced (the
retained `code` variable). -/
theorem c1_retry_exhaustion (loadDf : FileMeta → Except String DataFrame)
    (llm : Nat → String → String → Except String String)
    (interp : Nat → String → Scope → List Nat → Except String (Scope × List Nat))
    (render : List Nat → List Nat) (files_meta : List FileMeta) (user_query : String)
    (h1 : files_meta ≠ [])
    (h2 : (loadPhase loadDf files_meta).1 ≠ [])
    (h3 : ∀ i le c,
      generate_code llm i user_query (loadPhase loadDf files_meta).2 le "" = .ok c →
      ∃ e, execute_safe (interp i) render c (loadPhase loadDf files_meta).1 = .error e) :
    (run_analysis loadDf llm interp render files_meta user_query).1.is_error = true ∧
    (run_analysis loadDf llm interp render files_meta user_query).2.length = 3 ∧
    (run_analysis loadDf llm interp render files_meta user_query).1.answer_text =
      "Не удалось. Ошибка: " ++ pyFmtOpt
        (lastErrAfter none (run_analysis loadDf llm interp render files_meta user_query).2) ∧
    (run_analysis loadDf llm interp render files_meta user_query).1.executed_code =
      codeAfter "" (run_analysis loadDf llm interp render files_meta user_query).2 ∧
    (∀ r, (run_analysis loadDf llm interp render files_meta user_query).2.getLast? = some r →
      (run_analysis loadDf llm interp render files_meta user_query).1.answer_text =
        "Не удалось. Ошибка: " ++ pyFmtOpt (outcomeErr r.outcome)) := by
  have hfail : ∀ i ∈ List.range maxRetries,
      attemptFails llm
        (fun i c =>
          match execute_safe (interp i) render c (loadPhase loadDf files_meta).1 with
          | .error e => .error e
          | .ok r => .ok (pyStr r.1, r.2.1))
        user_query (loadPhase loadDf files_meta).2 i := by
    intro i _ le c hg
    obtain ⟨e, he⟩ := h3 i le c hg
    exact ⟨e, by simp only [he]⟩
  obtain ⟨t, ht, hlen, herr⟩ :=
    analysisGo_allFail llm
      (fun i c =>
        match execute_safe (interp i) render c (loadPhase loadDf files_meta).1 with
        | .error e => .error e
        | .ok r => .ok (pyStr r.1, r.2.1))
      user_query (loadPhase loadDf files_meta).2 (List.range maxRetries) none "" hfail
  have hrun : run_analysis loadDf llm interp render files_meta user_query =
      (exhaustResp (lastErrAfter none t) (codeAfter "" t), t) := by
    simp only [run_analysis, List.isEmpty_iff, if_neg h1, if_neg h2]
    exact ht
  rw [hrun]
  refine ⟨rfl, by simpa [maxRetries] using hlen, rfl, rfl, ?_⟩
  intro r hr
  have hmem : r ∈ t := by
    obtain ⟨hne', heq⟩ := List.mem_getLast?_eq_getLast (Option.mem_def.mpr hr)
    rw [heq]
    exact List.getLast_mem hne'
  have := lastErrAfter_getLast t none r hr (herr r hmem)
  simp [exhaustResp, this]

def c1Meta : List FileMeta := [⟨7, "a.xlsx", "p", some [("c", "desc")]⟩]

def c1LoadDf : FileMeta → Except String DataFrame := fun _ => .ok ⟨[("c", ["v"])]⟩

def c1Llm : Nat → String → String → Except String String :=
  fun _ _ _ => .error "ConnectionError: refused"

def c1Interp : Nat → String → Scope → List Nat → Except String (Scope × List Nat) :=
  fun _ _ _ _ => .error "unused"

def c1Render : List Nat → List Nat := fun _ => [1]

theorem c1_retry_exhaustion_witness :
    (c1Meta ≠ [] ∧ (loadPhase c1LoadDf c1Meta).1 ≠ []) ∧
    ((run_analysis c1LoadDf c1Llm c1Interp c1Render c1Meta "Q").1.is_error = true ∧
     (run_analysis c1LoadDf c1Llm c1Interp c1Render c1Meta "Q").2.length = 3 ∧
     (run_analysis c1LoadDf c1Llm c1Interp c1Render c1Meta "Q").1.answer_text =
       "Не удалось. Ошибка: " ++ pyFmtOpt
         (lastErrAfter none (run_analysis c1LoadDf c1Llm c1Interp c1Render c1Meta "Q").2) ∧
     (run_analysis c1LoadDf c1Llm c1Interp c1Render c1Meta "Q").1.executed_code =
       codeAfter "" (run_analysis c1LoadDf c1Llm c1Interp c1Render c1Meta "Q").2 ∧
     (∀ r, (run_analysis c1LoadDf c1Llm c1Interp c1Render c1Meta "Q").2.getLast? = some r →
       (run_analysis c1LoadDf c1Llm c1Interp c1Render c1Meta "Q").1.answer_text =
         "Не удалось. Ошибка: " ++ pyFmtOpt (outcomeErr r.outcome))) := by
  have h1 : c1Meta ≠ [] := by decide
  have h2 : (loadPhase c1LoadDf c1Meta).1 ≠ [] := by decide
  have h3 : ∀ i le c,
      generate_code c1Llm i "Q" (loadPhase c1LoadDf c1Meta).2 le "" = .ok c →
      ∃ e, execute_safe (c1Interp i) c1Render c (loadPhase c1LoadDf c1Meta).1 = .error e := by
    intro i le c h
    simp [generate_code, c1Llm] at h
  exact ⟨⟨h1, h2⟩,
    c1_retry_exhaustion c1LoadDf c1Llm c1Interp c1Render c1Meta "Q" h1 h2 h3⟩

/-- C9: An analysis run with zero datasets available returns immediately
the fixed no-data message with `is_error = false` and an empty attempt
trace: no model call is made and no code is executed. -/
theorem c9_no_data_early_return (loadDf : FileMeta → Except String DataFrame)
    (llm : Nat → String → String → Except String String)
    (interp : Nat → String → Scope → List Nat → Except String (Scope × List Nat))
    (render : List Nat → List Nat) (user_query : String) :
    run_analysis loadDf llm interp render [] user_query =
      ({ answer_text := "Нет файлов. Загрузите Excel.", plot_base64 := none,
         executed_code := "", is_error := false }, []) := rfl

/-- C10: With at least one metadata entry selected, the loaded dataframes
are exactly the entries whose load succeeded (a failing load is skipped
and its exception does not propagate); when every entry fails to load the
run returns the fixed data-error response with `is_error = true` and an
empty attempt trace (before any generation attempt); and whenever at
least one entry loads, the run proceeds into the retry loop over exactly
the loaded subset. -/
theorem c10_partial_load_skip (loadDf : FileMeta → Except String DataFrame)
    (llm : Nat → String → String → Except String String)
    (interp : Nat → String → Scope → List Nat → Except String (Scope × List Nat))
    (render : List Nat → List Nat) (files_meta : List FileMeta) (user_query : String)
    (h1 : files_meta ≠ []) :
    ((loadPhase loadDf files_meta).1 =
      files_meta.filterMap (fun m =>
        match loadDf m with
        | .ok df => some ("df_" ++ toString m.id, df)
        | .error _ => none)) ∧
    ((∀ m ∈ files_meta, ∃ e, loadDf m = .error e) →
      run_analysis loadDf llm interp render files_meta user_query =
        ({ answer_text := "Ошибка данных", plot_base64 := none,
           executed_code := "", is_error := true }, [])) ∧
    ((loadPhase loadDf files_meta).1 ≠ [] →
      run_analysis loadDf llm interp render files_meta user_query =
        analysisGo llm
          (fun i c =>
            match execute_safe (interp i) render c (loadPhase loadDf files_meta).1 with
            | .error e => .error e
            | .ok r => .ok (pyStr r.1, r.2.1))
          user_query (loadPhase loadDf files_meta).2 (List.range maxRetries) none "") := by
  have hfst : ∀ metas : List FileMeta, (loadPhase loadDf metas).1 =
      metas.filterMap (fun m =>
        match loadDf m with
        | .ok df => some ("df_" ++ toString m.id, df)
        | .error _ => none) := by
    intro metas
    induction metas with
    | nil => rfl
    | cons m rest ih =>
      cases hm : loadDf m with
      | error e => simp [loadPhase, hm, ih]
      | ok df =>
        cases hb : mkSchemaBlock m df <;> simp [loadPhase, hm, hb, ih]
  refine ⟨hfst files_meta, ?_, ?_⟩
  · intro hall
    have hempty : (loadPhase loadDf files_meta).1 = [] := by
      rw [hfst files_meta]
      rw [List.filterMap_eq_nil_iff]
      intro m hm
      obtain ⟨e, he⟩ := hall m hm
      simp [he]
    simp [run_analysis, List.isEmpty_iff, h1, hempty]
  · intro hne
    simp only [run_analysis, List.isEmpty_iff, if_neg h1, if_neg hne]

def c10Meta : List FileMeta := [⟨1, "a.xlsx", "p", none⟩, ⟨2, "b.csv", "q", none⟩]

def c10LoadDf : FileMeta → Except String DataFrame :=
  fun m => if m.id = 1 then .error "ParserError: bad bytes" else .ok ⟨[("c", ["v"])]⟩

theorem c10_partial_load_skip_witness :
    c10Meta ≠ [] ∧
    (((loadPhase c10LoadDf c10Meta).1 =
       c10Meta.filterMap (fun m =>
         match c10LoadDf m with
         | .ok df => some ("df_" ++ toString m.id, df)
         | .error _ => none)) ∧
     ((∀ m ∈ c10Meta, ∃ e, c10LoadDf m = .error e) →
       run_analysis c10LoadDf c1Llm c1Interp c1Render c10Meta "Q" =
         ({ answer_text := "Ошибка данных", plot_base64 := none,
            executed_code := "", is_error := true }, [])) ∧
     ((loadPhase c10LoadDf c10Meta).1 ≠ [] →
       run_analysis c10LoadDf c1Llm c1Interp c1Render c10Meta "Q" =
         analysisGo c1Llm
           (fun i c =>
             match execute_safe (c1Interp i) c1Render c (loadPhase c10LoadDf c10Meta).1 with
             | .error e => .error e
             | .ok r => .ok (pyStr r.1, r.2.1))
           "Q" (loadPhase c10LoadDf c10Meta).2 (List.range maxRetries) none "")) := by
  have h1 : c10Meta ≠ [] := by decide
  exact ⟨h1, c10_partial_load_skip c10LoadDf c1Llm c1Interp c1Render c10Meta "Q" h1⟩

lemma asString_cons_ne_empty (c : Char) (l : List Char) : (c :: l).asString ≠ "" := by
  intro h
  have h2 : c :: l = ([] : List Char) := congrArg String.data h
  exact List.cons_ne_nil c l h2

lemma base64Encode_ne_empty : ∀ bytes : List Nat, bytes ≠ [] → base64Encode bytes ≠ ""
  | [], h => absurd rfl h
  | [_], _ => asString_cons_ne_empty _ _
  | [_, _], _ => asString_cons_ne_empty _ _
  | _ :: _ :: _ :: _, _ => asString_cons_ne_empty _ _

/-- C5 counterexample: in the environment of `exec(code, {}, local_scope)`
the builtin `open` — a filesystem capability — is resolvable by the
generated code even with zero datasets loaded, although it is neither of
the two permitted handles; so the execution scope does not contain *only*
the permitted handles and datasets. -/
theorem c5_builtins_reachable_cex :
    "open" ∈ execAccessibleNames [] ∧ "open" ∉ localScopeNames [] := by decide

/-- C5 amended: the *explicitly constructed* local scope passed to `exec`
binds exactly the two capability handles `pd` and `plt` plus the loaded
datasets under their stable identifiers, and nothing else; however,
because `exec` is called with an empty globals dict, CPython injects the
builtins, so filesystem/network-capable names remain reachable by the
generated code (the open security gap the spec's design notes flag). -/
theorem c5_local_scope_only_permitted (dfs : List (String × DataFrame)) :
    localScopeNames dfs = "pd" :: "plt" :: dfs.map Prod.fst ∧
    (∀ n, n ∈ localScopeNames dfs →
      n = "pd" ∨ n = "plt" ∨ n ∈ dfs.map Prod.fst) := by
  have h : localScopeNames dfs = "pd" :: "plt" :: dfs.map Prod.fst := by
    simp [localScopeNames, mkLocalScope]
  refine ⟨h, ?_⟩
  intro n hn
  rw [h] at hn
  rcases List.mem_cons.mp hn with h1 | hn
  · exact Or.inl h1
  rcases List.mem_cons.mp hn with h2 | hn
  · exact Or.inr (Or.inl h2)
  · exact Or.inr (Or.inr hn)

def c5Df : DataFrame := ⟨[("c", ["v"])]⟩

theorem c5_local_scope_only_permitted_witness :
    ("df_1" ∈ localScopeNames [("df_1", c5Df)]) ∧
    ("df_1" = "pd" ∨ "df_1" = "plt" ∨ "df_1" ∈ [("df_1", c5Df)].map Prod.fst) :=
  ⟨by decide, (c5_local_scope_only_permitted [("df_1", c5Df)]).2 "df_1" (by decide)⟩

/-- C6: when the executed code leaves a non-empty figure registry,
`_execute_safe` returns a chart field holding the non-empty base64
encoding of the rasterised figure bytes, clears all figures (the returned
registry is empty), and overwrites a non-string `final_result` with the
fixed chart message (a string `final_result` is kept); when no figure was
drawn the chart field is `none`. -/
theorem c6_chart_capture (interp : String → Scope → List Nat → Except String (Scope × List Nat))
    (render : List Nat → List Nat) (code : String) (dfs : List (String × DataFrame))
    (scope : Scope) (figs : List Nat)
    (hrun : interp code (mkLocalScope dfs) [] = .ok (scope, figs)) :
    (figs ≠ [] → render figs ≠ [] →
      ∃ fr, execute_safe interp render code dfs =
              .ok (fr, some (base64Encode (render figs)), []) ∧
            base64Encode (render figs) ≠ "" ∧
            (isStrV ((scopeGet scope "final_result").getD (PyValue.str "Код выполнен.")) = false →
              fr = PyValue.str "График построен.") ∧
            (∀ s, (scopeGet scope "final_result").getD (PyValue.str "Код выполнен.") =
                    PyValue.str s → fr = PyValue.str s)) ∧
    (figs = [] →
      execute_safe interp render code dfs =
        .ok ((scopeGet scope "final_result").getD (PyValue.str "Код выполнен."), none, [])) := by
  constructor
  · intro hfig hbytes
    refine ⟨if isStrV ((scopeGet scope "final_result").getD (PyValue.str "Код выполнен."))
            then (scopeGet scope "final_result").getD (PyValue.str "Код выполнен.")
            else PyValue.str "График построен.", ?_, base64Encode_ne_empty _ hbytes, ?_, ?_⟩
    · simp [execute_safe, hrun, List.isEmpty_iff, hfig]
    · intro hns
      simp [hns]
    · intro s hs
      simp [hs, isStrV]
  · intro hfig
    subst hfig
    simp [execute_safe, hrun]

def c6Interp : String → Scope → List Nat → Except String (Scope × List Nat) :=
  fun _ _ _ => .ok ([("final_result", PyValue.intg 5)], [1])

def c6Render : List Nat → List Nat := fun _ => [137, 80, 78, 71]

theorem c6_chart_capture_witness :
    (c6Interp "code" (mkLocalScope []) [] = .ok ([("final_result", PyValue.intg 5)], [1])) ∧
    (([1] : List Nat) ≠ [] ∧ c6Render [1] ≠ []) ∧
    (∃ fr, execute_safe c6Interp c6Render "code" [] =
             .ok (fr, some (base64Encode (c6Render [1])), []) ∧
           base64Encode (c6Render [1]) ≠ "" ∧
           (isStrV ((scopeGet [("final_result", PyValue.intg 5)] "final_result").getD
               (PyValue.str "Код выполнен.")) = false →
             fr = PyValue.str "График построен.") ∧
           (∀ s, (scopeGet [("final_result", PyValue.intg 5)] "final_result").getD
                   (PyValue.str "Код выполнен.") = PyValue.str s → fr = PyValue.str s)) := by
  refine ⟨rfl, ⟨by decide, by decide⟩, ?_⟩
  exact (c6_chart_capture c6Interp c6Render "code" [] [("final_result", PyValue.intg 5)] [1]
    rfl).1 (by decide) (by decide)

def c8Interp : String → Scope → List Nat → Except String (Scope × List Nat) :=
  fun _ s _ => .ok (("final_result", PyValue.str "") :: s, [])

def c8Render : List Nat → List Nat := fun _ => []

/-- C8 counterexample: a run whose `final_result` is present but empty
does *not* yield the fixed placeholder — the empty string itself is the
result, because `local_scope.get("final_result", ...)` substitutes the
placeholder only when the key is absent, not when its value is empty. -/
theorem c8_empty_result_kept_cex :
    execute_safe c8Interp c8Render "x" [] = .ok (PyValue.str "", none, []) ∧
    scopeGet (("final_result", PyValue.str "") :: mkLocalScope []) "final_result" =
      some (PyValue.str "") ∧
    pyStr (PyValue.str "") = "" ∧
    PyValue.str "" ≠ PyValue.str "Код выполнен." := by
  refine ⟨rfl, rfl, rfl, by decide⟩

/-- C8 amended: after an execution that completes without raising and
draws no figure, the fixed "executed" placeholder is substituted exactly
when the designated output variable is *absent* from the scope; a present
value — even an empty string — is returned as the result, coerced to a
display string by `str(...)` (`pyStr`) at the `run_analysis` return. -/
theorem c8_output_variable (interp : String → Scope → List Nat → Except String (Scope × List Nat))
    (render : List Nat → List Nat) (code : String) (dfs : List (String × DataFrame))
    (scope : Scope)
    (hrun : interp code (mkLocalScope dfs) [] = .ok (scope, [])) :
    (scopeGet scope "final_result" = none →
      execute_safe interp render code dfs = .ok (PyValue.str "Код выполнен.", none, []) ∧
      pyStr (PyValue.str "Код выполнен.") = "Код выполнен.") ∧
    (∀ v, scopeGet scope "final_result" = some v →
      execute_safe interp render code dfs = .ok (v, none, [])) := by
  constructor
  · intro habs
    exact ⟨by simp [execute_safe, hrun, habs], rfl⟩
  · intro v hv
    simp [execute_safe, hrun, hv]

def c8InterpB : String → Scope → List Nat → Except String (Scope × List Nat) :=
  fun _ s _ => .ok (("final_result", PyValue.intg 42) :: s, [])

theorem c8_output_variable_witness :
    (c8InterpB "x" (mkLocalScope []) [] =
      .ok (("final_result", PyValue.intg 42) :: mkLocalScope [], [])) ∧
    (scopeGet (("final_result", PyValue.intg 42) :: mkLocalScope []) "final_result" =
      some (PyValue.intg 42)) ∧
    execute_safe c8InterpB c8Render "x" [] = .ok (PyValue.intg 42, none, []) := by
  refine ⟨rfl, rfl, ?_⟩
  exact (c8_output_variable c8InterpB c8Render "x" []
    (("final_result", PyValue.intg 42) :: mkLocalScope []) rfl).2
    (PyValue.intg 42) rfl

def c2SqlClassifier : Except String JsonVal := .ok (.obj [("intent", JsonVal.str "sql")])

def c2PyOk : String → Except String AnalyticsResponse :=
  fun _ => .ok { answer_text := "ok", executed_code := "" }

def c2GenOk : String → Except String String := fun _ => .ok "hi"

def c2SqlOk : String → Except String SqlResp := fun _ => .ok (.refusal "r")

/-- C2 counterexample: with the router selecting the structured-query
branch and that branch handler raising, the compiled graph run returns the
raised exception to its caller — no well-formed response with an error
flag is produced, so an exception from a branch handler does escape the
orchestration state machine.  (The fixed user-facing message lives in the
Telegram handler, outside the state machine, and the workflow state has no
error flag at all.) -/
theorem c2_branch_exception_escapes_cex :
    workflow_ainvoke c2SqlClassifier
      (fun _ => .error "OperationalError: connection refused") c2PyOk c2GenOk "q" "s" =
      .error "OperationalError: connection refused" := rfl

/-- C2 amended: the state machine of `build_graph` installs no exception
handler around its branch nodes: whichever branch the router selects, an
exception raised by that branch handler propagates unchanged out of the
graph run to the caller of `ainvoke` (who is the Telegram handler, which
catches it outside the state machine). -/
theorem c2_branch_exception_propagation (e q s : String)
    (sqlH : String → Except String SqlResp)
    (pyH : String → Except String AnalyticsResponse)
    (genH : String → Except String String) :
    workflow_ainvoke (.ok (.obj [("intent", JsonVal.str "sql")]))
      (fun _ => .error e) pyH genH q s = .error e ∧
    workflow_ainvoke (.ok (.obj [("intent", JsonVal.str "python")]))
      sqlH (fun _ => .error e) genH q s = .error e ∧
    workflow_ainvoke (.ok (.obj [("intent", JsonVal.str "general")]))
      sqlH pyH (fun _ => .error e) q s = .error e :=
  ⟨rfl, rfl, rfl⟩

/-- C3 counterexample: a classifier reply that parses fine but carries the
unrecognized intent value `banana` is *not* defaulted to conversational:
`router_node` passes it through, `route_condition` maps it to
`banana_agent`, which is not a branch of the graph, and the request run
fails instead of degrading to chat. -/
theorem c3_unrecognized_intent_cex :
    router_node (.ok (.obj [("intent", JsonVal.str "banana")])) = JsonVal.str "banana" ∧
    ("banana" : String) ≠ "general" ∧
    workflow_ainvoke (.ok (.obj [("intent", JsonVal.str "banana")]))
      c2SqlOk c2PyOk c2GenOk "q" "s" =
      .error "Branch condition returned unknown target banana_agent" :=
  ⟨rfl, by decide, rfl⟩

/-- C3 amended: on a raising classifier call (network failure or
unparseable JSON), a parsed object lacking the `intent` field, or a parsed
non-object, the resolved intent defaults to `general` (conversational) and
the run dispatches to the conversational branch, answering with whatever
content the chat model returns (the code neither checks it for
non-emptiness nor records an error flag — the workflow state has none).
An unrecognized intent *value*, by contrast, is passed through unvalidated
and dispatch fails (see the counterexample). -/
theorem c3_router_fallback (e a q s : String) (kvs : List (String × JsonVal))
    (sqlH : String → Except String SqlResp)
    (pyH : String → Except String AnalyticsResponse)
    (hmiss : lookupJson kvs "intent" = none) :
    router_node (.error e) = JsonVal.str "general" ∧
    router_node (.ok (.obj kvs)) = JsonVal.str "general" ∧
    router_node (.ok (.arr [])) = JsonVal.str "general" ∧
    workflow_ainvoke (.error e) sqlH pyH (fun _ => .ok a) q s =
      .ok { final_answer := some a } ∧
    workflow_ainvoke (.ok (.obj kvs)) sqlH pyH (fun _ => .ok a) q s =
      .ok { final_answer := some a } := by
  have hr : router_node (.ok (.obj kvs)) = JsonVal.str "general" := by
    simp [router_node, hmiss]
  refine ⟨rfl, hr, rfl, rfl, ?_⟩
  simp only [workflow_ainvoke, hr]
  rfl

theorem c3_router_fallback_witness :
    (lookupJson [("other", JsonVal.str "x")] "intent" = none) ∧
    (router_node (.error "JSONDecodeError: Expecting value") = JsonVal.str "general" ∧
     router_node (.ok (.obj [("other", JsonVal.str "x")])) = JsonVal.str "general" ∧
     router_node (.ok (.arr [])) = JsonVal.str "general" ∧
     workflow_ainvoke (.error "JSONDecodeError: Expecting value") c2SqlOk c2PyOk
       (fun _ => .ok "Привет!") "q" "s" = .ok { final_answer := some "Привет!" } ∧
     workflow_ainvoke (.ok (.obj [("other", JsonVal.str "x")])) c2SqlOk c2PyOk
       (fun _ => .ok "Привет!") "q" "s" = .ok { final_answer := some "Привет!" }) :=
  ⟨rfl, c3_router_fallback "JSONDecodeError: Expecting value" "Привет!" "q" "s"
    [("other", JsonVal.str "x")] c2SqlOk c2PyOk rfl⟩

/-- C4 counterexample: for the fenced model reply
` ```sql\nSELECT name FROM sqlusers``` ` the claimed behaviour — content
between the first pair of delimiters with the language *tag* stripped —
would yield the query `SELECT name FROM sqlusers`; the code instead
removes *every* occurrence of the substring `sql` from the fenced content
(`.replace("sql", "")`), mangling the identifier to `users`. -/
theorem c4_fence_strip_cex :
    cleanSqlOf ("```sql\nSELECT name FROM sqlusers```") =
      .inr "SELECT name FROM users" ∧
    ("SELECT name FROM users" : String) ≠ "SELECT name FROM sqlusers" := by
  constructor
  · rfl
  · decide

/-- C4 amended: the extraction is a sequential refinement — (1) with a
fence present, take `split`-segment 1 and delete every occurrence of the
substring `sql`; (2) with the `SQLQuery:` label present, take the segment
after its first occurrence (up to any next occurrence); (3) regardless of
whether (1)/(2) applied, the query is the refined text from its first
case-insensitive `SELECT` to the end, stripped; and (4) with no `SELECT`
in the refined text, the *refined* text is returned as the answer with no
query executed — it equals the raw response verbatim exactly when neither
fence nor label occurred. -/
theorem c4_extraction_cascade (raw : String) :
    (containsSub raw.toList "```".toList = false →
      containsSub raw.toList "SQLQuery:".toList = false →
      sqlRefine raw.toList = raw.toList) ∧
    (∀ i, findSub ((sqlRefine raw.toList).map Char.toUpper) "SELECT".toList = some i →
      cleanSqlOf raw = .inr (pyStrip ((sqlRefine raw.toList).drop i)).asString) ∧
    (findSub ((sqlRefine raw.toList).map Char.toUpper) "SELECT".toList = none →
      cleanSqlOf raw = .inl (sqlRefine raw.toList).asString ∧
      ∀ (dbRun : String → Except String String)
        (llmInterp : String → String → String → Except String String) (q : String),
        generate_response (.ok raw) dbRun llmInterp q =
          .ok (.refusal (sqlRefine raw.toList).asString, [])) := by
  refine ⟨?_, ?_, ?_⟩
  · intro hf hl
    simp only [sqlRefine, hf, Bool.false_eq_true, if_false, hl]
  · intro i hi
    simp only [cleanSqlOf, hi]
  · intro hn
    refine ⟨by simp only [cleanSqlOf, hn], ?_⟩
    intro dbRun llmInterp q
    simp only [generate_response, cleanSqlOf, hn]

theorem c4_extraction_cascade_witness :
    (containsSub "REFUSED".toList "```".toList = false) ∧
    (findSub ((sqlRefine "REFUSED".toList).map Char.toUpper) "SELECT".toList = none) ∧
    cleanSqlOf "REFUSED" = .inl (sqlRefine "REFUSED".toList).asString ∧
    generate_response (.ok "REFUSED") (fun _ => .ok "") (fun _ _ _ => .ok "") "q" =
      .ok (.refusal (sqlRefine "REFUSED".toList).asString, []) := by
  have h := (c4_extraction_cascade "REFUSED").2.2 (by decide)
  exact ⟨by decide, by decide, h.1, h.2 (fun _ => .ok "") (fun _ _ _ => .ok "") "q"⟩

/-! ## C7: what the next generation call's context contains -/

/-- Every attempt's model message is `genMsg` of the `last_error` state
entering that attempt — the run-dependent generation context is a function
of the question and the captured error alone. -/
lemma analysisGo_msg_spec (llm : Nat → String → String → Except String String)
    (ex : Nat → String → Except String (String × Option String))
    (query : String) (schemas : List String) :
    ∀ (l : List Nat) (le : Option String) (code : String) (k : Nat) (rec : AttemptRec),
      ((analysisGo llm ex query schemas l le code).2).get? k = some rec →
      rec.msg =
        genMsg query (lastErrAfter le (((analysisGo llm ex query schemas l le code).2).take k)) := by
  intro l
  induction l with
  | nil =>
    intro le code k rec h
    simp [analysisGo] at h
  | cons i rest ih =>
    intro le code k rec h
    cases hg : generate_code llm i query schemas le "" with
    | error e =>
      rw [show analysisGo llm ex query schemas (i :: rest) le code =
            ((analysisGo llm ex query schemas rest (some e) code).1,
             ⟨genMsg query le, .genFail e⟩ ::
               (analysisGo llm ex query schemas rest (some e) code).2) from by
          simp only [analysisGo, hg]] at h ⊢
      cases k with
      | zero =>
        simp at h
        subst h
        rfl
      | succ k =>
        simp only [List.get?_cons_succ] at h
        have := ih (some e) code k rec h
        simpa [lastErrAfter, outcomeErr] using this
    | ok c =>
      cases he : ex i c with
      | ok res =>
        rw [show analysisGo llm ex query schemas (i :: rest) le code =
              ({ answer_text := res.1, plot_base64 := res.2, executed_code := c },
               [⟨genMsg query le, .success c res.1 res.2⟩]) from by
            simp only [analysisGo, hg, he]] at h ⊢
        cases k with
        | zero =>
          simp at h
          subst h
          rfl
        | succ k => simp at h
      | error e =>
        rw [show analysisGo llm ex query schemas (i :: rest) le code =
              ((analysisGo llm ex query schemas rest (some e) c).1,
               ⟨genMsg query le, .execFail c e⟩ ::
                 (analysisGo llm ex query schemas rest (some e) c).2) from by
            simp only [analysisGo, hg, he]] at h ⊢
        cases k with
        | zero =>
          simp at h
          subst h
          rfl
        | succ k =>
          simp only [List.get?_cons_succ] at h
          have := ih (some e) c k rec h
          simpa [lastErrAfter, outcomeErr] using this

def c7Llm : Nat → String → String → Except String String :=
  fun i _ _ => .ok (if i = 0 then "CODE0AB" else "CODE1")

def c7Ex : Nat → String → Except String (String × Option String) :=
  fun _ c => if c = "CODE0AB" then .error "ValueError: bad" else .ok ("5", none)

/-- C7 counterexample: attempt 0 executes the retained code `CODE0AB` and
fails, yet the generation context of attempt 1 — the assembled message and
the schema blocks, the only run-dependent inputs the model call receives —
contains the captured error but nowhere the previous code text, so the
model cannot diff against what it tried. -/
theorem c7_prev_code_absent_cex :
    ((analysisGo c7Llm c7Ex "Q" ["SCHEMA"] (List.range 3) none "").2).get? 0 =
      some ⟨"Q", .execFail "CODE0AB" "ValueError: bad"⟩ ∧
    ((analysisGo c7Llm c7Ex "Q" ["SCHEMA"] (List.range 3) none "").2).get? 1 =
      some ⟨"Q\n\nPREVIOUS ERROR: ValueError: bad\nHINT: Remove plt.show()! Check your column names.",
            .success "CODE1" "5" none⟩ ∧
    containsSub ("Q\n\nPREVIOUS ERROR: ValueError: bad\nHINT: Remove plt.show()! Check your column names.").toList
      "CODE0AB".toList = false ∧
    containsSub "SCHEMA".toList "CODE0AB".toList = false := by
  refine ⟨rfl, rfl, by decide, by decide⟩

/-- C7 amended: after a failed attempt, the next generation call's context
does receive the captured error — every attempt's message equals `genMsg`
of the `last_error` state entering it, i.e. the question plus the previous
error text and the fixed hint — but the retained previous code text is
*not* part of that context: `_generate_code` is invoked without its
`previous_code` parameter and ignores it, so generation is independent of
it (the retained code only feeds the exhaustion response). -/
theorem c7_error_feedback_context (llm : Nat → String → String → Except String String)
    (ex : Nat → String → Except String (String × Option String))
    (query : String) (schemas : List String) (l : List Nat) (le : Option String)
    (code : String) (k : Nat) (rec : AttemptRec) (e : String)
    (hk : ((analysisGo llm ex query schemas l le code).2).get? k = some rec)
    (hle : lastErrAfter le (((analysisGo llm ex query schemas l le code).2).take k) = some e)
    (hne : e ≠ "") :
    rec.msg = query ++ "\n\nPREVIOUS ERROR: " ++ e ++
      "\nHINT: Remove plt.show()! Check your column names." ∧
    (∀ p1 p2 i le2, generate_code llm i query schemas le2 p1 =
      generate_code llm i query schemas le2 p2) := by
  constructor
  · have h := analysisGo_msg_spec llm ex query schemas l le code k rec hk
    rw [hle] at h
    rw [h]
    simp [genMsg, hne]
  · intro p1 p2 i le2
    rfl

theorem c7_error_feedback_context_witness :
    (((analysisGo c7Llm c7Ex "Q" ["SCHEMA"] (List.range 3) none "").2).get? 1 =
      some ⟨"Q\n\nPREVIOUS ERROR: ValueError: bad\nHINT: Remove plt.show()! Check your column names.",
            .success "CODE1" "5" none⟩ ∧
     lastErrAfter none
       (((analysisGo c7Llm c7Ex "Q" ["SCHEMA"] (List.range 3) none "").2).take 1) =
       some "ValueError: bad" ∧
     ("ValueError: bad" : String) ≠ "") ∧
    ((⟨"Q\n\nPREVIOUS ERROR: ValueError: bad\nHINT: Remove plt.show()! Check your column names.",
       .success "CODE1" "5" none⟩ : AttemptRec).msg =
      "Q" ++ "\n\nPREVIOUS ERROR: " ++ "ValueError: bad" ++
        "\nHINT: Remove plt.show()! Check your column names." ∧
     (∀ p1 p2 i le2, generate_code c7Llm i "Q" ["SCHEMA"] le2 p1 =
       generate_code c7Llm i "Q" ["SCHEMA"] le2 p2)) := by
  have h1 : ((analysisGo c7Llm c7Ex "Q" ["SCHEMA"] (List.range 3) none "").2).get? 1 =
      some ⟨"Q\n\nPREVIOUS ERROR: ValueError: bad\nHINT: Remove plt.show()! Check your column names.",
            .success "CODE1" "5" none⟩ := rfl
  have h2 : lastErrAfter none
      (((analysisGo c7Llm c7Ex "Q" ["SCHEMA"] (List.range 3) none "").2).take 1) =
      some "ValueError: bad" := rfl
  have h3 : ("ValueError: bad" : String) ≠ "" := by decide
  exact ⟨⟨h1, h2, h3⟩,
    c7_error_feedback_context c7Llm c7Ex "Q" ["SCHEMA"] (List.range 3) none "" 1 _
      "ValueError: bad" h1 h2 h3⟩
